import Mathlib

/-!
Shallow embedding of the FrankCode embeddings generator
(`src/utils/embeddings.py`), a one-shot CLI that reads a text file,
computes a sentence embedding through an external model library, and
writes the vector as JSON.

The external world (file system, model library) is modelled explicitly:
the file system is an association list from paths to contents, and the
model library is an oracle record whose `load` and `encode` operations
may fail.  The program body (`get_embedding`, `main`) is translated
statement by statement from the Python source; every externally visible
effect (reads, write opens, model calls, stdout, stderr, exit code) is
recorded in an `Outcome`.
-/

set_option autoImplicit false

/-- Contents stored at a path: either bytes that decode as UTF-8 to a
string, or bytes that are not valid UTF-8 (described abstractly). -/
inductive FileContent where
  | text (s : String)
  | invalidUtf8 (desc : String)

/-- The file-system part of the world: files by path, plus the set of
paths where opening for writing raises a permission error. -/
structure World where
  files : List (String × FileContent)
  readOnlyPaths : List String

/-- Message of a Python `FileNotFoundError`; it names the missing path. -/
def fileNotFoundMsg (p : String) : String :=
  "[Errno 2] No such file or directory: " ++ p

/-- Message of a Python `PermissionError` on opening for writing. -/
def permissionDeniedMsg (p : String) : String :=
  "[Errno 13] Permission denied: " ++ p

/-- Message of a Python `UnicodeDecodeError` when reading non-UTF-8 data. -/
def decodeErrorMsg (d : String) : String :=
  "utf-8 codec cannot decode bytes: " ++ d

/-- `open(p, "r", encoding="utf-8")` followed by `f.read()`: returns the
whole decoded content, or fails when the file is missing or not UTF-8. -/
def fsRead (w : World) (p : String) : Except String String :=
  match List.lookup p w.files with
  | none => Except.error (fileNotFoundMsg p)
  | some (FileContent.text s) => Except.ok s
  | some (FileContent.invalidUtf8 d) => Except.error (decodeErrorMsg d)

/-- `open(p, "w", encoding="utf-8")` followed by a full write: replaces
whatever was previously stored at `p`, or fails with a permission error
on a read-only path. -/
def fsWrite (w : World) (p : String) (c : String) : Except String World :=
  if w.readOnlyPaths.contains p then
    Except.error (permissionDeniedMsg p)
  else
    Except.ok
      { files := (p, FileContent.text c) :: w.files.filter (fun kv => kv.1 != p)
        readOnlyPaths := w.readOnlyPaths }

/-- A Python numeric container holding the embedding components, as
distinguished by the `isinstance` checks in `get_embedding`: a
`torch.Tensor`, a `np.ndarray`, or a plain Python list of floats. -/
inductive PyVal where
  | tensor (xs : List Float)
  | ndarray (xs : List Float)
  | plain (xs : List Float)

/-- `if isinstance(embedding, torch.Tensor): embedding =
embedding.cpu().detach().numpy()` — a tensor becomes an ndarray with the
same components; anything else passes through. -/
def tensorToNdarray : PyVal → PyVal
  | PyVal.tensor xs => PyVal.ndarray xs
  | v => v

/-- `if isinstance(embedding, np.ndarray): embedding =
embedding.tolist()` — an ndarray becomes a plain list with the same
components; anything else passes through. -/
def ndarrayToPlain : PyVal → PyVal
  | PyVal.ndarray xs => PyVal.plain xs
  | v => v

/-- The component sequence held by a container, in stored order. -/
def PyVal.values : PyVal → List Float
  | PyVal.tensor xs => xs
  | PyVal.ndarray xs => xs
  | PyVal.plain xs => xs

/-- The external model library (`sentence_transformers`), as a black
box: `load` is `SentenceTransformer(model_name)` returning a model
handle, `encode` is `model.encode(text, normalize_embeddings=flag)`
returning some numeric container.  Either call may raise. -/
structure ModelLib where
  load : String → Except String Nat
  encode : Nat → String → Bool → Except String PyVal

/-- Externally visible side effects of a run, in order. -/
inductive Event where
  | fileRead (path : String)
  | fileOpenWrite (path : String)
  | modelLoad (name : String)
  | encodeCall (text : String) (normalize : Bool)

/-- What `get_embedding` produces: the returned value or the re-raised
exception, the lines it printed to stderr, and its model-library calls. -/
structure GEResult where
  result : Except String PyVal
  errLog : List String
  events : List Event

/-- Default of the `--model` flag and of `get_embedding`. -/
def defaultModel : String := "jinaai/jina-embeddings-v3"

/-- `get_embedding(text, model_name)`: load the model, encode with
`normalize_embeddings=True`, convert tensor/ndarray results to a plain
list; on any exception print `Error generating embedding: ...` to
stderr and re-raise. -/
def get_embedding (lib : ModelLib) (text : String) (model_name : String) : GEResult :=
  match lib.load model_name with
  | Except.error e =>
    { result := Except.error e
      errLog := ["Error generating embedding: " ++ e]
      events := [Event.modelLoad model_name] }
  | Except.ok model =>
    match lib.encode model text true with
    | Except.error e =>
      { result := Except.error e
        errLog := ["Error generating embedding: " ++ e]
        events := [Event.modelLoad model_name, Event.encodeCall text true] }
    | Except.ok embedding =>
      { result := Except.ok (ndarrayToPlain (tensorToNdarray embedding))
        errLog := []
        events := [Event.modelLoad model_name, Event.encodeCall text true] }

/-- JSON values, as produced by Python `json.dump`. -/
inductive JValue where
  | num (x : Float)
  | arr (elems : List JValue)
  | obj (fields : List (String × JValue))

mutual

/-- Serialization with `json.dump` default separators (`", "`, `": "`). -/
def JValue.dump : JValue → String
  | JValue.num x => toString x
  | JValue.arr es => "[" ++ String.intercalate ", " (dumpElems es) ++ "]"
  | JValue.obj fs => "\x7b" ++ String.intercalate ", " (dumpFields fs) ++ "\x7d"

def dumpElems : List JValue → List String
  | [] => []
  | v :: vs => JValue.dump v :: dumpElems vs

def dumpFields : List (String × JValue) → List String
  | [] => []
  | (k, v) :: fs => ("\"" ++ k ++ "\": " ++ JValue.dump v) :: dumpFields fs

end

/-- The Python dict `{"embedding": embedding}` as a JSON value, with
`embedding` a list of floats. -/
def embeddingJson (vs : List Float) : JValue :=
  JValue.obj [("embedding", JValue.arr (List.map JValue.num vs))]

/-- `json.dump({"embedding": embedding}, f)` serialized to text. -/
def dumpsEmbedding (vs : List Float) : String :=
  JValue.dump (embeddingJson vs)

/-- The parsed CLI arguments after a successful `parser.parse_args()`. -/
structure Args where
  input : String
  output : String
  model : String

/-- Accumulator while scanning the argument vector. -/
structure OptArgs where
  input : Option String
  output : Option String
  model : Option String

/-- Scan flag/value pairs; an unknown flag or a flag without a value is
a usage error (`none`). -/
def scanArgs : List String → OptArgs → Option OptArgs
  | [], acc => some acc
  | a :: v :: rest, acc =>
    if a == "--input" then scanArgs rest { acc with input := some v }
    else if a == "--output" then scanArgs rest { acc with output := some v }
    else if a == "--model" then scanArgs rest { acc with model := some v }
    else none
  | _ :: [], _ => none

/-- `argparse` with `--input` and `--output` required and `--model`
defaulted: `none` is the parser rejecting the invocation (it exits the
process with code 2 before `main`'s body runs). -/
def parseArgs (argv : List String) : Option Args :=
  match scanArgs argv { input := none, output := none, model := none } with
  | none => none
  | some opts =>
    match opts.input, opts.output with
    | some i, some o =>
      some { input := i, output := o, model := opts.model.getD defaultModel }
    | _, _ => none

/-- Everything observable about one finished process invocation. -/
structure Outcome where
  exitCode : Nat
  world : World
  stdout : List String
  stderr : List String
  events : List Event

/-- The stderr line argparse prints when rejecting the invocation. -/
def usageErrorMsg : String :=
  "usage error: the following arguments are required: input and output paths"

/-- The body of `main` after successful argument parsing: the `try`
block reading the input, computing the embedding, writing the output
and printing the confirmation, with the top-level `except` printing
`Error: ...` to stderr and returning 1. -/
def mainWithArgs (lib : ModelLib) (w : World) (a : Args) : Outcome :=
  match fsRead w a.input with
  | Except.error e =>
    { exitCode := 1
      world := w
      stdout := []
      stderr := ["Error: " ++ e]
      events := [Event.fileRead a.input] }
  | Except.ok text =>
    let ge := get_embedding lib text a.model
    match ge.result with
    | Except.error e =>
      { exitCode := 1
        world := w
        stdout := []
        stderr := ge.errLog ++ ["Error: " ++ e]
        events := Event.fileRead a.input :: ge.events }
    | Except.ok emb =>
      let content := dumpsEmbedding (PyVal.values emb)
      match fsWrite w a.output content with
      | Except.error e =>
        { exitCode := 1
          world := w
          stdout := []
          stderr := ["Error: " ++ e]
          events := Event.fileRead a.input :: (ge.events ++ [Event.fileOpenWrite a.output]) }
      | Except.ok w2 =>
        { exitCode := 0
          world := w2
          stdout := ["Embedding saved to " ++ a.output]
          stderr := []
          events := Event.fileRead a.input :: (ge.events ++ [Event.fileOpenWrite a.output]) }

/-- `main()` wrapped by `sys.exit(main())`: parse the arguments (a
parser rejection exits with code 2 before any work) then run the body. -/
def main_run (lib : ModelLib) (w : World) (argv : List String) : Outcome :=
  match parseArgs argv with
  | none =>
    { exitCode := 2
      world := w
      stdout := []
      stderr := [usageErrorMsg]
      events := [] }
  | some a => mainWithArgs lib w a

/-- Whether the `sentence_transformers`/`torch`/`numpy` imports at
module load succeed. -/
inductive ImportStatus where
  | ok
  | failed

/-- The whole script: the module-level `try: import ... except
ImportError` guard prints install instructions to stdout and exits with
code 1 before anything else; otherwise `main` runs. -/
def script_run (imp : ImportStatus) (lib : ModelLib) (w : World) (argv : List String) : Outcome :=
  match imp with
  | ImportStatus.failed =>
    { exitCode := 1
      world := w
      stdout := ["Required packages not found. Please install them with:",
                 "pip install sentence-transformers torch numpy"]
      stderr := []
      events := [] }
  | ImportStatus.ok => main_run lib w argv

/-! ### Helper lemmas -/

theorem main_run_eq (lib : ModelLib) (w : World) (argv : List String) (args : Args)
    (hp : parseArgs argv = some args) :
    main_run lib w argv = mainWithArgs lib w args := by
  unfold main_run
  rw [hp]

theorem conv_plain (c : PyVal) :
    ndarrayToPlain (tensorToNdarray c) = PyVal.plain (PyVal.values c) := by
  cases c <;> rfl

theorem fsWrite_lookup (w w2 : World) (p c : String)
    (h : fsWrite w p c = Except.ok w2) :
    List.lookup p w2.files = some (FileContent.text c) := by
  unfold fsWrite at h
  split at h
  · exact absurd h (by simp)
  · injection h with h2
    subst h2
    simp [List.lookup]

theorem fsRead_congr (w1 w2 : World) (p : String)
    (h : List.lookup p w1.files = List.lookup p w2.files) :
    fsRead w1 p = fsRead w2 p := by
  unfold fsRead
  rw [h]

theorem get_embedding_encode_event (lib : ModelLib) (text name : String) (t : String) (b : Bool)
    (h : Event.encodeCall t b ∈ (get_embedding lib text name).events) :
    t = text ∧ b = true := by
  unfold get_embedding at h
  cases hl : lib.load name with
  | error e => simp only [hl] at h; simp at h
  | ok m =>
    simp only [hl] at h
    cases he : lib.encode m text true with
    | error e => simp only [he] at h; simp at h; exact h
    | ok c => simp only [he] at h; simp at h; exact h

theorem get_embedding_no_write_event (lib : ModelLib) (text name : String) (p : String) :
    Event.fileOpenWrite p ∉ (get_embedding lib text name).events := by
  unfold get_embedding
  cases hl : lib.load name with
  | error e => simp [hl]
  | ok m =>
    cases he : lib.encode m text true with
    | error e => simp [hl, he]
    | ok c => simp [hl, he]

/-! ### Concrete instances used to exercise the theorems -/

/-- A model library whose encode returns an ndarray, as
`sentence_transformers` does for a single text by default. -/
def demoLib : ModelLib :=
  { load := fun _ => Except.ok 0
    encode := fun _ _ _ => Except.ok (PyVal.ndarray [0.6, 0.8]) }

/-- A model library whose encode returns a torch tensor. -/
def demoLibT : ModelLib :=
  { load := fun _ => Except.ok 7
    encode := fun _ _ _ => Except.ok (PyVal.tensor [1.5, 2.5]) }

/-- A model library whose load raises. -/
def failLoadLib : ModelLib :=
  { load := fun _ => Except.error "load failure"
    encode := fun _ _ _ => Except.ok (PyVal.plain []) }

/-- A model library whose encode raises. -/
def failEncodeLib : ModelLib :=
  { load := fun _ => Except.ok 0
    encode := fun _ _ _ => Except.error "encode failure" }

def demoWorld : World :=
  { files := [("in.txt", FileContent.text "hello world")]
    readOnlyPaths := [] }

/-- Same input-file content as `demoWorld`, different rest of the world. -/
def demoWorldB : World :=
  { files := [("other.txt", FileContent.text "noise"), ("in.txt", FileContent.text "hello world")]
    readOnlyPaths := ["other.txt"] }

def emptyWorld : World :=
  { files := []
    readOnlyPaths := [] }

/-- Same input file as `demoWorld`, but the output path is unwritable. -/
def roWorld : World :=
  { files := [("in.txt", FileContent.text "hello world")]
    readOnlyPaths := ["out.json"] }

/-- The world after a successful `demoLib`/`demoWorld` run. -/
def demoOutWorld : World :=
  { files := [("out.json", FileContent.text (dumpsEmbedding [0.6, 0.8])),
              ("in.txt", FileContent.text "hello world")]
    readOnlyPaths := [] }

def demoArgv : List String := ["--input", "in.txt", "--output", "out.json"]

def missingFlagArgv : List String := ["--input", "in.txt"]

def demoArgs : Args :=
  { input := "in.txt", output := "out.json", model := defaultModel }

/-! ### The claims -/

/-- Claim C1: for every invocation that succeeds, the file at the
`--output` path contains exactly the JSON serialization of an object
with exactly one key, `embedding`, whose value is an array of numbers,
written in full and replacing any content previously at that path. -/
theorem embedding_output_json_shape (lib : ModelLib) (w : World) (argv : List String)
    (args : Args) (hp : parseArgs argv = some args)
    (h0 : (main_run lib w argv).exitCode = 0) :
    ∃ vs : List Float,
      List.lookup args.output (main_run lib w argv).world.files
        = some (FileContent.text (JValue.dump (JValue.obj
            [("embedding", JValue.arr (List.map JValue.num vs))]))) := by
  rw [main_run_eq lib w argv args hp] at h0 ⊢
  unfold mainWithArgs at h0 ⊢
  cases hr : fsRead w args.input with
  | error e => simp only [hr] at h0; simp at h0
  | ok s =>
    simp only [hr] at h0 ⊢
    cases hg : (get_embedding lib s args.model).result with
    | error e => simp only [hg] at h0; simp at h0
    | ok emb =>
      simp only [hg] at h0 ⊢
      cases hw : fsWrite w args.output (dumpsEmbedding (PyVal.values emb)) with
      | error e => simp only [hw] at h0; simp at h0
      | ok w2 =>
        simp only [hw]
        refine ⟨PyVal.values emb, ?_⟩
        simpa [dumpsEmbedding, embeddingJson] using
          fsWrite_lookup w w2 args.output (dumpsEmbedding (PyVal.values emb)) hw

theorem embedding_output_json_shape_witness :
    parseArgs demoArgv = some demoArgs ∧
    (main_run demoLib demoWorld demoArgv).exitCode = 0 ∧
    ∃ vs : List Float,
      List.lookup "out.json" (main_run demoLib demoWorld demoArgv).world.files
        = some (FileContent.text (JValue.dump (JValue.obj
            [("embedding", JValue.arr (List.map JValue.num vs))]))) :=
  ⟨rfl, rfl, embedding_output_json_shape demoLib demoWorld demoArgv demoArgs rfl rfl⟩

/-- Claim C2: once the arguments parse, each possible exception in the
body — reading the input, computing the embedding, or writing the
output — forces exit code 1 with that exception's message printed to
stderr as `Error: ...`; and when no step fails, exactly the
confirmation naming the output path is printed and the exit code is 0. -/
theorem top_level_exit_codes (lib : ModelLib) (w : World) (argv : List String)
    (args : Args) (hp : parseArgs argv = some args) :
    (∀ e, fsRead w args.input = Except.error e →
      (main_run lib w argv).exitCode = 1 ∧
      (main_run lib w argv).stderr = ["Error: " ++ e]) ∧
    (∀ s e, fsRead w args.input = Except.ok s →
      (get_embedding lib s args.model).result = Except.error e →
      (main_run lib w argv).exitCode = 1 ∧
      (main_run lib w argv).stderr
        = (get_embedding lib s args.model).errLog ++ ["Error: " ++ e]) ∧
    (∀ s emb e, fsRead w args.input = Except.ok s →
      (get_embedding lib s args.model).result = Except.ok emb →
      fsWrite w args.output (dumpsEmbedding (PyVal.values emb)) = Except.error e →
      (main_run lib w argv).exitCode = 1 ∧
      (main_run lib w argv).stderr = ["Error: " ++ e]) ∧
    (∀ s emb w2, fsRead w args.input = Except.ok s →
      (get_embedding lib s args.model).result = Except.ok emb →
      fsWrite w args.output (dumpsEmbedding (PyVal.values emb)) = Except.ok w2 →
      (main_run lib w argv).exitCode = 0 ∧
      (main_run lib w argv).stdout = ["Embedding saved to " ++ args.output] ∧
      (main_run lib w argv).stderr = []) := by
  refine ⟨?_, ?_, ?_, ?_⟩
  · intro e hr
    rw [main_run_eq lib w argv args hp]
    unfold mainWithArgs
    simp [hr]
  · intro s e hr hg
    rw [main_run_eq lib w argv args hp]
    unfold mainWithArgs
    simp [hr, hg]
  · intro s emb e hr hg hw
    rw [main_run_eq lib w argv args hp]
    unfold mainWithArgs
    simp [hr, hg, hw]
  · intro s emb w2 hr hg hw
    rw [main_run_eq lib w argv args hp]
    unfold mainWithArgs
    simp [hr, hg, hw]

theorem top_level_exit_codes_witness :
    parseArgs demoArgv = some demoArgs ∧
    fsRead demoWorld "in.txt" = Except.ok "hello world" ∧
    fsWrite demoWorld "out.json" (dumpsEmbedding [0.6, 0.8]) = Except.ok demoOutWorld ∧
    (main_run demoLib demoWorld demoArgv).exitCode = 0 ∧
    (main_run demoLib demoWorld demoArgv).stdout = ["Embedding saved to out.json"] ∧
    (main_run demoLib demoWorld demoArgv).stderr = [] ∧
    fsWrite roWorld "out.json" (dumpsEmbedding [0.6, 0.8])
      = Except.error (permissionDeniedMsg "out.json") ∧
    (main_run demoLib roWorld demoArgv).exitCode = 1 ∧
    (main_run demoLib roWorld demoArgv).stderr
      = ["Error: " ++ permissionDeniedMsg "out.json"] :=
  ⟨rfl, rfl, rfl,
    ((top_level_exit_codes demoLib demoWorld demoArgv demoArgs rfl).2.2.2
      "hello world" (PyVal.plain [0.6, 0.8]) demoOutWorld rfl rfl rfl).1,
    ((top_level_exit_codes demoLib demoWorld demoArgv demoArgs rfl).2.2.2
      "hello world" (PyVal.plain [0.6, 0.8]) demoOutWorld rfl rfl rfl).2.1,
    ((top_level_exit_codes demoLib demoWorld demoArgv demoArgs rfl).2.2.2
      "hello world" (PyVal.plain [0.6, 0.8]) demoOutWorld rfl rfl rfl).2.2,
    rfl,
    ((top_level_exit_codes demoLib roWorld demoArgv demoArgs rfl).2.2.1
      "hello world" (PyVal.plain [0.6, 0.8]) (permissionDeniedMsg "out.json")
      rfl rfl rfl).1,
    ((top_level_exit_codes demoLib roWorld demoArgv demoArgs rfl).2.2.1
      "hello world" (PyVal.plain [0.6, 0.8]) (permissionDeniedMsg "out.json")
      rfl rfl rfl).2⟩

/-- Claim C3: `get_embedding` converts whatever numeric container the
model's encode call returns into a plain ordered list of floats,
performing no other transformation: the result has the same components,
in the same order, as the model's output. -/
theorem get_embedding_normalizes_container (lib : ModelLib) (text name : String)
    (m : Nat) (c : PyVal)
    (hl : lib.load name = Except.ok m)
    (he : lib.encode m text true = Except.ok c) :
    (get_embedding lib text name).result = Except.ok (PyVal.plain (PyVal.values c)) := by
  unfold get_embedding
  simp [hl, he, conv_plain]

theorem get_embedding_normalizes_container_witness :
    demoLibT.load defaultModel = Except.ok 7 ∧
    demoLibT.encode 7 "hello world" true = Except.ok (PyVal.tensor [1.5, 2.5]) ∧
    (get_embedding demoLibT "hello world" defaultModel).result
      = Except.ok (PyVal.plain [1.5, 2.5]) :=
  ⟨rfl, rfl,
    get_embedding_normalizes_container demoLibT "hello world" defaultModel 7
      (PyVal.tensor [1.5, 2.5]) rfl rfl⟩

/-- Claim C4: the program reads the whole input file as UTF-8: a missing
file yields an I/O error and an exit with code 1 whose stderr message
names the input path, non-UTF-8 content yields a decoding error, and on
a successful read the full decoded content is what gets encoded. -/
theorem input_read_utf8_errors (lib : ModelLib) (w : World) (argv : List String)
    (args : Args) (hp : parseArgs argv = some args) :
    (List.lookup args.input w.files = none →
      (main_run lib w argv).exitCode = 1 ∧
      (main_run lib w argv).stderr = ["Error: " ++ fileNotFoundMsg args.input]) ∧
    (∀ d, List.lookup args.input w.files = some (FileContent.invalidUtf8 d) →
      (main_run lib w argv).exitCode = 1 ∧
      (main_run lib w argv).stderr = ["Error: " ++ decodeErrorMsg d]) ∧
    (∀ s, List.lookup args.input w.files = some (FileContent.text s) →
      ∀ t b, Event.encodeCall t b ∈ (main_run lib w argv).events → t = s) := by
  refine ⟨?_, ?_, ?_⟩
  · intro hnone
    rw [main_run_eq lib w argv args hp]
    unfold mainWithArgs
    have hr : fsRead w args.input = Except.error (fileNotFoundMsg args.input) := by
      unfold fsRead
      rw [hnone]
    simp [hr]
  · intro d hd
    rw [main_run_eq lib w argv args hp]
    unfold mainWithArgs
    have hr : fsRead w args.input = Except.error (decodeErrorMsg d) := by
      unfold fsRead
      rw [hd]
    simp [hr]
  · intro s hs t b hmem
    rw [main_run_eq lib w argv args hp] at hmem
    unfold mainWithArgs at hmem
    have hr : fsRead w args.input = Except.ok s := by
      unfold fsRead
      rw [hs]
    simp only [hr] at hmem
    cases hg : (get_embedding lib s args.model).result with
    | error e =>
      simp only [hg] at hmem
      simp at hmem
      exact (get_embedding_encode_event lib s args.model t b hmem).1
    | ok emb =>
      simp only [hg] at hmem
      cases hw : fsWrite w args.output (dumpsEmbedding (PyVal.values emb)) with
      | error e =>
        simp only [hw] at hmem
        simp at hmem
        exact (get_embedding_encode_event lib s args.model t b hmem).1
      | ok w2 =>
        simp only [hw] at hmem
        simp at hmem
        exact (get_embedding_encode_event lib s args.model t b hmem).1

theorem input_read_utf8_errors_witness :
    parseArgs demoArgv = some demoArgs ∧
    List.lookup "in.txt" emptyWorld.files = none ∧
    (main_run demoLib emptyWorld demoArgv).exitCode = 1 ∧
    (main_run demoLib emptyWorld demoArgv).stderr
      = ["Error: " ++ fileNotFoundMsg "in.txt"] :=
  ⟨rfl, rfl,
    ((input_read_utf8_errors demoLib emptyWorld demoArgv demoArgs rfl).1 rfl).1,
    ((input_read_utf8_errors demoLib emptyWorld demoArgv demoArgs rfl).1 rfl).2⟩

/-- Claim C5: when a required flag is missing the argument parser
rejects the invocation: the process exits with a nonzero code, performs
no file I/O, and leaves the world unchanged. -/
theorem missing_flags_reject_before_io (lib : ModelLib) (w : World) (argv : List String)
    (hp : parseArgs argv = none) :
    (main_run lib w argv).exitCode ≠ 0 ∧
    (main_run lib w argv).events = [] ∧
    (main_run lib w argv).world = w := by
  unfold main_run
  rw [hp]
  exact ⟨by simp, rfl, rfl⟩

theorem missing_flags_reject_before_io_witness :
    parseArgs missingFlagArgv = none ∧
    (main_run demoLib demoWorld missingFlagArgv).exitCode ≠ 0 ∧
    (main_run demoLib demoWorld missingFlagArgv).events = [] ∧
    (main_run demoLib demoWorld missingFlagArgv).world = demoWorld :=
  ⟨rfl,
    (missing_flags_reject_before_io demoLib demoWorld missingFlagArgv rfl).1,
    (missing_flags_reject_before_io demoLib demoWorld missingFlagArgv rfl).2.1,
    (missing_flags_reject_before_io demoLib demoWorld missingFlagArgv rfl).2.2⟩

/-- Claim C6: an exception during model loading or encoding is caught in
`get_embedding`, logged to stderr with the prefix `Error generating
embedding:`, re-raised, caught again in `main` which prints `Error: ...`
and yields exit code 1. -/
theorem model_errors_logged_and_reraised (lib : ModelLib) (w : World) (argv : List String)
    (args : Args) (s : String)
    (hp : parseArgs argv = some args)
    (hr : fsRead w args.input = Except.ok s) :
    (∀ e, lib.load args.model = Except.error e →
      (main_run lib w argv).stderr
        = ["Error generating embedding: " ++ e, "Error: " ++ e] ∧
      (main_run lib w argv).exitCode = 1) ∧
    (∀ m e, lib.load args.model = Except.ok m →
      lib.encode m s true = Except.error e →
      (main_run lib w argv).stderr
        = ["Error generating embedding: " ++ e, "Error: " ++ e] ∧
      (main_run lib w argv).exitCode = 1) := by
  constructor
  · intro e hl
    rw [main_run_eq lib w argv args hp]
    unfold mainWithArgs
    have hg : get_embedding lib s args.model
        = { result := Except.error e
            errLog := ["Error generating embedding: " ++ e]
            events := [Event.modelLoad args.model] } := by
      unfold get_embedding
      simp only [hl]
    simp [hr, hg]
  · intro m e hl he
    rw [main_run_eq lib w argv args hp]
    unfold mainWithArgs
    have hg : get_embedding lib s args.model
        = { result := Except.error e
            errLog := ["Error generating embedding: " ++ e]
            events := [Event.modelLoad args.model, Event.encodeCall s true] } := by
      unfold get_embedding
      simp only [hl, he]
    simp [hr, hg]

theorem model_errors_logged_and_reraised_witness :
    parseArgs demoArgv = some demoArgs ∧
    fsRead demoWorld "in.txt" = Except.ok "hello world" ∧
    failLoadLib.load defaultModel = Except.error "load failure" ∧
    (main_run failLoadLib demoWorld demoArgv).stderr
      = ["Error generating embedding: load failure", "Error: load failure"] ∧
    (main_run failLoadLib demoWorld demoArgv).exitCode = 1 :=
  ⟨rfl, rfl, rfl,
    ((model_errors_logged_and_reraised failLoadLib demoWorld demoArgv demoArgs
      "hello world" rfl rfl).1 "load failure" rfl).1,
    ((model_errors_logged_and_reraised failLoadLib demoWorld demoArgv demoArgs
      "hello world" rfl rfl).1 "load failure" rfl).2⟩

theorem values_plain (xs : List Float) : PyVal.values (PyVal.plain xs) = xs := rfl

/-- Claim C7: every encode call the program makes requests normalized
(unit-length) output, and on success the vector written to the output
file is exactly the component list of that normalize-requested encode
result — so the model honoring its normalization contract makes the
written vector unit length. -/
theorem encode_requests_normalization (lib : ModelLib) (w : World) (argv : List String)
    (args : Args) (s : String)
    (hp : parseArgs argv = some args)
    (hr : fsRead w args.input = Except.ok s) :
    (∀ t b, Event.encodeCall t b ∈ (main_run lib w argv).events → b = true) ∧
    ((main_run lib w argv).exitCode = 0 →
      ∃ m c, lib.load args.model = Except.ok m ∧
        lib.encode m s true = Except.ok c ∧
        List.lookup args.output (main_run lib w argv).world.files
          = some (FileContent.text (dumpsEmbedding (PyVal.values c)))) := by
  constructor
  · intro t b hmem
    rw [main_run_eq lib w argv args hp] at hmem
    unfold mainWithArgs at hmem
    simp only [hr] at hmem
    cases hg : (get_embedding lib s args.model).result with
    | error e =>
      simp only [hg] at hmem
      simp at hmem
      exact (get_embedding_encode_event lib s args.model t b hmem).2
    | ok emb =>
      simp only [hg] at hmem
      cases hw : fsWrite w args.output (dumpsEmbedding (PyVal.values emb)) with
      | error e =>
        simp only [hw] at hmem
        simp at hmem
        exact (get_embedding_encode_event lib s args.model t b hmem).2
      | ok w2 =>
        simp only [hw] at hmem
        simp at hmem
        exact (get_embedding_encode_event lib s args.model t b hmem).2
  · intro h0
    rw [main_run_eq lib w argv args hp] at h0 ⊢
    unfold mainWithArgs at h0 ⊢
    simp only [hr] at h0 ⊢
    cases hl : lib.load args.model with
    | error e =>
      have hg : (get_embedding lib s args.model).result = Except.error e := by
        unfold get_embedding
        simp only [hl]
      simp only [hg] at h0
      simp at h0
    | ok m =>
      cases he : lib.encode m s true with
      | error e =>
        have hg : (get_embedding lib s args.model).result = Except.error e := by
          unfold get_embedding
          simp only [hl, he]
        simp only [hg] at h0
        simp at h0
      | ok c =>
        have hg : (get_embedding lib s args.model).result
            = Except.ok (PyVal.plain (PyVal.values c)) := by
          unfold get_embedding
          simp [hl, he, conv_plain]
        simp only [hg, values_plain] at h0 ⊢
        cases hw : fsWrite w args.output (dumpsEmbedding (PyVal.values c)) with
        | error e =>
          simp only [hw] at h0
          simp at h0
        | ok w2 =>
          simp only [hw] at h0 ⊢
          refine ⟨m, c, rfl, he, ?_⟩
          simpa using fsWrite_lookup w w2 args.output (dumpsEmbedding (PyVal.values c)) hw

theorem encode_requests_normalization_witness :
    parseArgs demoArgv = some demoArgs ∧
    fsRead demoWorld "in.txt" = Except.ok "hello world" ∧
    (main_run demoLib demoWorld demoArgv).exitCode = 0 ∧
    ∃ m c, demoLib.load defaultModel = Except.ok m ∧
      demoLib.encode m "hello world" true = Except.ok c ∧
      List.lookup "out.json" (main_run demoLib demoWorld demoArgv).world.files
        = some (FileContent.text (dumpsEmbedding (PyVal.values c))) :=
  ⟨rfl, rfl, rfl,
    (encode_requests_normalization demoLib demoWorld demoArgv demoArgs
      "hello world" rfl rfl).2 rfl⟩

/-- Claim C8: the program introduces no nondeterminism of its own: two
invocations with the same model library, the same argument vector and
identical input-file contents write identical output JSON. -/
theorem deterministic_output (lib : ModelLib) (w1 w2 : World) (argv : List String)
    (args : Args)
    (hp : parseArgs argv = some args)
    (hin : List.lookup args.input w1.files = List.lookup args.input w2.files)
    (h1 : (main_run lib w1 argv).exitCode = 0)
    (h2 : (main_run lib w2 argv).exitCode = 0) :
    List.lookup args.output (main_run lib w1 argv).world.files
      = List.lookup args.output (main_run lib w2 argv).world.files := by
  have hre : fsRead w1 args.input = fsRead w2 args.input :=
    fsRead_congr w1 w2 args.input hin
  rw [main_run_eq lib w1 argv args hp] at h1 ⊢
  rw [main_run_eq lib w2 argv args hp] at h2 ⊢
  unfold mainWithArgs at h1 h2 ⊢
  cases hr : fsRead w1 args.input with
  | error e =>
    simp only [hr] at h1
    simp at h1
  | ok s =>
    have hr2 : fsRead w2 args.input = Except.ok s := by rw [← hre, hr]
    simp only [hr, hr2] at h1 h2 ⊢
    cases hg : (get_embedding lib s args.model).result with
    | error e =>
      simp only [hg] at h1
      simp at h1
    | ok emb =>
      simp only [hg] at h1 h2 ⊢
      cases hw1 : fsWrite w1 args.output (dumpsEmbedding (PyVal.values emb)) with
      | error e =>
        simp only [hw1] at h1
        simp at h1
      | ok w1b =>
        cases hw2 : fsWrite w2 args.output (dumpsEmbedding (PyVal.values emb)) with
        | error e =>
          simp only [hw2] at h2
          simp at h2
        | ok w2b =>
          simp only [hw1, hw2]
          rw [fsWrite_lookup w1 w1b args.output (dumpsEmbedding (PyVal.values emb)) hw1,
            fsWrite_lookup w2 w2b args.output (dumpsEmbedding (PyVal.values emb)) hw2]

theorem deterministic_output_witness :
    parseArgs demoArgv = some demoArgs ∧
    List.lookup "in.txt" demoWorld.files = List.lookup "in.txt" demoWorldB.files ∧
    (main_run demoLib demoWorld demoArgv).exitCode = 0 ∧
    (main_run demoLib demoWorldB demoArgv).exitCode = 0 ∧
    List.lookup "out.json" (main_run demoLib demoWorld demoArgv).world.files
      = List.lookup "out.json" (main_run demoLib demoWorldB demoArgv).world.files :=
  ⟨rfl, rfl, rfl, rfl,
    deterministic_output demoLib demoWorld demoWorldB demoArgv demoArgs rfl rfl rfl rfl⟩

/-- Claim C9: if reading the input, loading the model, or encoding
fails, the output path is never opened, created, or modified: no
write-open event happens and the file system is left unchanged. -/
theorem no_output_write_on_failure (lib : ModelLib) (w : World) (argv : List String)
    (args : Args) (hp : parseArgs argv = some args) :
    (∀ e, fsRead w args.input = Except.error e →
      (main_run lib w argv).world = w ∧
      ∀ p, Event.fileOpenWrite p ∉ (main_run lib w argv).events) ∧
    (∀ s e, fsRead w args.input = Except.ok s →
      (get_embedding lib s args.model).result = Except.error e →
      (main_run lib w argv).world = w ∧
      ∀ p, Event.fileOpenWrite p ∉ (main_run lib w argv).events) := by
  constructor
  · intro e hr
    rw [main_run_eq lib w argv args hp]
    unfold mainWithArgs
    simp only [hr]
    exact ⟨trivial, fun p => by simp⟩
  · intro s e hr hg
    rw [main_run_eq lib w argv args hp]
    unfold mainWithArgs
    simp only [hr, hg]
    refine ⟨trivial, fun p => ?_⟩
    simp only [Outcome.events, List.mem_cons]
    rintro (h | h)
    · exact Event.noConfusion h
    · exact get_embedding_no_write_event lib s args.model p h

theorem no_output_write_on_failure_witness :
    parseArgs demoArgv = some demoArgs ∧
    fsRead emptyWorld "in.txt" = Except.error (fileNotFoundMsg "in.txt") ∧
    (main_run demoLib emptyWorld demoArgv).world = emptyWorld ∧
    Event.fileOpenWrite "out.json" ∉ (main_run demoLib emptyWorld demoArgv).events :=
  ⟨rfl, rfl,
    ((no_output_write_on_failure demoLib emptyWorld demoArgv demoArgs rfl).1
      (fileNotFoundMsg "in.txt") rfl).1,
    ((no_output_write_on_failure demoLib emptyWorld demoArgv demoArgs rfl).1
      (fileNotFoundMsg "in.txt") rfl).2 "out.json"⟩

/-- Claim C10: when the required packages cannot be imported, the
module-level guard prints installation instructions to standard output
(not stderr) and exits with code 1 before parsing arguments or touching
any file, whatever the argument vector. -/
theorem import_guard_behavior (lib : ModelLib) (w : World) (argv : List String) :
    (script_run ImportStatus.failed lib w argv).exitCode = 1 ∧
    (script_run ImportStatus.failed lib w argv).stdout
      = ["Required packages not found. Please install them with:",
         "pip install sentence-transformers torch numpy"] ∧
    (script_run ImportStatus.failed lib w argv).stderr = [] ∧
    (script_run ImportStatus.failed lib w argv).events = [] ∧
    (script_run ImportStatus.failed lib w argv).world = w :=
  ⟨rfl, rfl, rfl, rfl, rfl⟩
